import Mathlib

/-!
Shallow embedding of the scan-orchestration core of the
prompt-injection-scanner frontend (`src/app/page.tsx`) and its proxy
forwarder (`src/app/api/proxy-scan/route.ts`).

Modelling conventions:
* JavaScript `undefined`/`null` fields become `Option`.
* `a || b` on strings (falsy = `undefined`/`""`) becomes `jsOrStr`.
* `a ?? b` (nullish coalescing) becomes `Option` alternation.
* `String.prototype.toUpperCase`/`toLowerCase` are modelled by the
  ASCII maps `jsToUpper`/`jsToLower` (all strings of interest are
  ASCII).
* JS numbers occurring as `line` values are modelled as integers
  (`Int`), whose JS string coercion agrees with `toString`; `confidence`
  values are modelled as rationals (`Rat`).
* `fetch` and `JSON.parse` are platform primitives: a network is a
  function from the request actually issued to a result, and a response
  carries the parse result of its body text (`none` = body is not valid
  JSON).
-/

namespace PromptScan

/-- JS `a || b` for an optional string `a`: `undefined` and `""` are falsy. -/
def jsOrStr (a : Option String) (b : String) : String :=
  match a with
  | none => b
  | some s => if s = "" then b else s

/-- JS `.replace(/\/$/, '')`: removes a single trailing slash, if any. -/
def stripTrailingSlash (s : String) : String :=
  match s.toList.getLast? with
  | some c => if c = Char.ofNat 47 then String.mk s.toList.dropLast else s
  | none => s

/-- ASCII upper-casing of one character, as
`String.prototype.toUpperCase` acts on the ASCII strings of interest. -/
def jsUpperChar (c : Char) : Char :=
  if 97 ≤ c.toNat ∧ c.toNat ≤ 122 then Char.ofNat (c.toNat - 32) else c

/-- JS `s.toUpperCase()` (ASCII model). -/
def jsToUpper (s : String) : String :=
  String.mk (s.toList.map jsUpperChar)

/-- ASCII lower-casing of one character. -/
def jsLowerChar (c : Char) : Char :=
  if 65 ≤ c.toNat ∧ c.toNat ≤ 90 then Char.ofNat (c.toNat + 32) else c

/-- JS `s.toLowerCase()` (ASCII model). -/
def jsToLower (s : String) : String :=
  String.mk (s.toList.map jsLowerChar)

/-- Does the second list start with the first (character-wise)? -/
def matchesAt : List Char → List Char → Bool
  | [], _ => true
  | _ :: _, [] => false
  | c :: cs, d :: ds => c == d && matchesAt cs ds

/-- The regex test `/^https?:\/\//i.test s`: case-insensitive prefix
check for an http or https scheme. -/
def hasHttpScheme (s : String) : Bool :=
  matchesAt "http://".toList (jsToLower s).toList ||
  matchesAt "https://".toList (jsToLower s).toList

/-- Does some suffix of `hay` start with `needle`? -/
def hasSubAux (needle : List Char) : List Char → Bool
  | [] => matchesAt needle []
  | d :: ds => matchesAt needle (d :: ds) || hasSubAux needle ds

/-- JS `hay.includes(needle)`: substring containment. -/
def strIncludes (hay needle : String) : Bool :=
  hasSubAux needle.toList hay.toList

/-- Upper-case hexadecimal digit, as produced by `encodeURIComponent`. -/
def hexDigitUpper (n : Nat) : Char :=
  if n < 10 then Char.ofNat (48 + n) else Char.ofNat (55 + n)

/-- Lower-case hexadecimal digit, as produced by `JSON.stringify` in
`\u00XX` escapes. -/
def hexDigitLower (n : Nat) : Char :=
  if n < 10 then Char.ofNat (48 + n) else Char.ofNat (87 + n)

/-- UTF-8 encoding of a Unicode scalar value, as a list of byte values. -/
def utf8Bytes (n : Nat) : List Nat :=
  if n < 128 then [n]
  else if n < 2048 then [192 + n / 64, 128 + n % 64]
  else if n < 65536 then [224 + n / 4096, 128 + (n / 64) % 64, 128 + n % 64]
  else [240 + n / 262144, 128 + (n / 4096) % 64, 128 + (n / 64) % 64, 128 + n % 64]

/-- The bytes `encodeURIComponent` leaves unescaped:
`A-Z a-z 0-9 - _ . ! ~ * ' ( )`. -/
def uriUnreservedByte (n : Nat) : Bool :=
  (65 ≤ n && n ≤ 90) || (97 ≤ n && n ≤ 122) || (48 ≤ n && n ≤ 57) ||
  n == 45 || n == 95 || n == 46 || n == 33 || n == 126 ||
  n == 42 || n == 39 || n == 40 || n == 41

/-- JS `encodeURIComponent`: percent-encodes every UTF-8 byte outside
the unreserved set, with upper-case hex digits. -/
def encodeURIComponent (s : String) : String :=
  String.mk ((s.toList.flatMap fun c => utf8Bytes c.toNat).flatMap fun b =>
    if uriUnreservedByte b then [Char.ofNat b]
    else [Char.ofNat 37, hexDigitUpper (b / 16), hexDigitUpper (b % 16)])

/-- `JSON.stringify` escaping of one string character. -/
def jsonEscapeChar (c : Char) : List Char :=
  if c == Char.ofNat 34 then [Char.ofNat 92, Char.ofNat 34]
  else if c == Char.ofNat 92 then [Char.ofNat 92, Char.ofNat 92]
  else if c == Char.ofNat 8 then [Char.ofNat 92, Char.ofNat 98]
  else if c == Char.ofNat 9 then [Char.ofNat 92, Char.ofNat 116]
  else if c == Char.ofNat 10 then [Char.ofNat 92, Char.ofNat 110]
  else if c == Char.ofNat 12 then [Char.ofNat 92, Char.ofNat 102]
  else if c == Char.ofNat 13 then [Char.ofNat 92, Char.ofNat 114]
  else if c.toNat < 32 then
    [Char.ofNat 92, Char.ofNat 117, Char.ofNat 48, Char.ofNat 48,
     hexDigitLower (c.toNat / 16), hexDigitLower (c.toNat % 16)]
  else [c]

/-- `JSON.stringify` of a string value. -/
def jsonQuote (s : String) : String :=
  "\"" ++ String.mk (s.toList.flatMap jsonEscapeChar) ++ "\""

/-- `JSON.stringify({ url })`, the POST body built in `scan`. -/
def jsonBodyUrl (u : String) : String :=
  "\x7b\"url\":" ++ jsonQuote u ++ "\x7d"

/-! ## Data model (`page.tsx` lines 8-32) -/

/-- A `line`/`line_no` field value: `number | string` in the TS type.
Numbers are modelled as integers (JS line numbers are integral). -/
inductive LineVal where
  | num (n : Int)
  | str (s : String)
deriving DecidableEq

/-- JS `String(v)` on a line value. -/
def LineVal.jsString : LineVal → String
  | .num n => toString n
  | .str s => s

/-- A runtime `confidence` field value: numeric, or some non-numeric
value (only its numeric-ness matters to the normalizer's
`typeof f.confidence === 'number'` test). -/
inductive ConfVal where
  | num (q : Rat)
  | nonNum
deriving DecidableEq

/-- `Finding` (`page.tsx` lines 8-16): all fields optional. -/
structure Finding where
  severity : Option String := none
  rule_id : Option String := none
  id : Option String := none
  message : Option String := none
  line : Option LineVal := none
  line_no : Option LineVal := none
  confidence : Option ConfVal := none
deriving DecidableEq

/-- `ResultItem` (`page.tsx` lines 18-22). `findings` is `Option` so
that the defensive `item.findings || []` read is meaningful. -/
structure ResultItem where
  file_path : String
  findings : Option (List Finding) := none
  language : Option String := none
deriving DecidableEq

/-- `ScanPayload.summary` (`page.tsx` lines 25-30). -/
structure Summary where
  total_files : Option Rat := none
  scanned_files : Option Rat := none
  total_findings : Option Rat := none
  scan_duration : Option Rat := none
deriving DecidableEq

/-- `ScanPayload` (`page.tsx` lines 24-32). -/
structure ScanPayload where
  summary : Option Summary := none
  results : Option (List ResultItem) := none
deriving DecidableEq

/-- One element of the `rows` array (`page.tsx` line 41). -/
structure NormalizedRow where
  file : String
  severity : String
  message : String
  line : String
  confidence : Option Rat
deriving DecidableEq

/-- The record pushed for one finding (`page.tsx` lines 44-50). -/
def normalizeFinding (filePath : String) (f : Finding) : NormalizedRow :=
  { file := filePath
    severity := jsToUpper (jsOrStr f.severity "unknown")
    message := jsOrStr f.message ""
    line :=
      match f.line with
      | some v => v.jsString
      | none =>
        match f.line_no with
        | some v => v.jsString
        | none => ""
    confidence :=
      match f.confidence with
      | some (ConfVal.num q) => some q
      | _ => none }

/-- The `rows` memo (`page.tsx` lines 40-54): flatten
`data?.results || []`, then each item's `item.findings || []`, in
order. -/
def rows (data : Option ScanPayload) : List NormalizedRow :=
  ((data.bind ScanPayload.results).getD []).flatMap fun item =>
    (item.findings.getD []).map (normalizeFinding item.file_path)

/-- The `bySeverity` memo (`page.tsx` lines 56-60), read as a total
function from label to group: the group for `sev` is the subsequence of
`rows` with that severity, in encounter order (a label never pushed
reads back as `[]`, matching the UI's `bySeverity[sev] || []`). -/
def bySeverity (rs : List NormalizedRow) (sev : String) : List NormalizedRow :=
  rs.filter fun r => r.severity == sev

/-- The fixed display order of severity buckets (`page.tsx` line 217). -/
def fiveLabels : List String := ["CRITICAL", "HIGH", "MEDIUM", "LOW", "UNKNOWN"]

/-- A payload within the loose wire type whose one finding carries the
out-of-set severity `"wat"` and the out-of-range numeric confidence
`2`. -/
def badSeverityPayload : ScanPayload :=
  { results := some [
      { file_path := "a.py",
        findings := some [
          { severity := some "wat",
            confidence := some (ConfVal.num 2) }] }] }

/-- A payload whose one finding is well-formed: a known severity label
and an in-range confidence. -/
def wellFormedPayload : ScanPayload :=
  { results := some [
      { file_path := "app.js",
        findings := some [
          { severity := some "high", message := some "eval with user input",
            line := some (LineVal.num 42),
            confidence := some (ConfVal.num 1) }] }] }

/-! ## Request Executor (`page.tsx` lines 67-82) -/

/-- The parse result of a JSON response body: its reading as a
`ScanPayload` (`json as ScanPayload`, line 81) and its optional `error`
string field (`json?.error`, line 79; `none` when the field is absent
or not a string). -/
structure ParsedJson where
  asPayload : ScanPayload := {}
  errorField : Option String := none
deriving DecidableEq

/-- An HTTP response as observed by `tryRequest`: status, the
`content-type` header (`none` when the header is absent), and the
`JSON.parse` result of the body text (`none` when the body is not valid
JSON). -/
structure HttpResponse where
  status : Nat
  contentType : Option String := none
  bodyJson : Option ParsedJson := none
deriving DecidableEq

/-- The outcome of one `fetch`: a response, or a thrown transport
exception carrying its message. -/
inductive NetResult where
  | response (r : HttpResponse)
  | exn (msg : String)
deriving DecidableEq

/-- The errors thrown inside `scan` (each carries exactly the data its
`Error` message is built from). `noAttempts` is
`new Error('All scan endpoints failed')` (line 114), thrown only when
the candidate list is empty. -/
inductive ScanError where
  | nonJson (status : Nat)
  | invalidJson
  | httpError (msg : String)
  | transport (msg : String)
  | noAttempts
deriving DecidableEq

/-- The `message` of the `Error` object each `ScanError` stands for. -/
def ScanError.message : ScanError → String
  | .nonJson status => "API returned non-JSON (status " ++ toString status ++ ")."
  | .invalidJson => "Invalid JSON from API."
  | .httpError m => m
  | .transport m => m
  | .noAttempts => "All scan endpoints failed"

/-- JS `String(e.message || e)` for an `Error e`: the message when
non-empty, else `"Error"`. -/
def errString (m : String) : String :=
  if m = "" then "Error" else m

/-- `Response.ok`: status in the inclusive range 200-299. -/
def isOkStatus (status : Nat) : Bool :=
  200 ≤ status && status ≤ 299

/-- `tryRequest` (`page.tsx` lines 67-82) applied to the outcome of its
`fetch`: content-type must include `application/json`, the body must
parse, and the status must be ok; otherwise the corresponding error is
thrown. -/
def tryRequest : NetResult → Except ScanError ScanPayload
  | .exn msg => .error (.transport msg)
  | .response r =>
    if strIncludes (r.contentType.getD "") "application/json" = false then
      .error (.nonJson r.status)
    else
      match r.bodyJson with
      | none => .error .invalidJson
      | some json =>
        if isOkStatus r.status = false then
          .error (.httpError
            (jsOrStr json.errorField ("Request failed (" ++ toString r.status ++ ")")))
        else .ok json.asPayload

/-! ## Endpoint Resolver and Fallback Controller (`page.tsx` lines 62-119) -/

/-- One entry of the `attempts` array (`page.tsx` line 89): endpoint,
HTTP method (`fetch` without `init` defaults to GET with no body), and
optional body. -/
structure Attempt where
  url : String
  method : String
  body : Option String := none
deriving DecidableEq

/-- The candidate construction of `scan` (`page.tsx` lines 89-104),
given the already-resolved `apiBase` and the user-supplied `url`. -/
def buildAttempts (apiBase url : String) : List Attempt :=
  (if apiBase ≠ "" then
    [{ url := "/api/proxy-scan", method := "POST", body := some (jsonBodyUrl url) },
     { url := "/api/proxy-scan?url=" ++ encodeURIComponent url, method := "GET" }]
   else []) ++
  [{ url := "/api/scan", method := "POST", body := some (jsonBodyUrl url) },
   { url := "/api/scan?url=" ++ encodeURIComponent url, method := "GET" },
   { url := "/api/scan/", method := "POST", body := some (jsonBodyUrl url) },
   { url := "/api/scan/?url=" ++ encodeURIComponent url, method := "GET" }] ++
  (if apiBase ≠ "" then
    let base := stripTrailingSlash apiBase
    [{ url := base ++ "/api/scan", method := "POST", body := some (jsonBodyUrl url) },
     { url := base ++ "/api/scan?url=" ++ encodeURIComponent url, method := "GET" },
     { url := base ++ "/api/scan/", method := "POST", body := some (jsonBodyUrl url) },
     { url := base ++ "/api/scan/?url=" ++ encodeURIComponent url, method := "GET" }]
   else [])

/-- A network: what each issued request comes back with. Candidates are
tried strictly sequentially, so a deterministic per-request oracle
captures one run. -/
def Network : Type := Attempt → NetResult

/-- The fallback loop of `scan` (`page.tsx` lines 106-114): try each
attempt in order, return the first success with the list of requests
actually issued; on exhaustion throw the last seen error
(`lastError || new Error('All scan endpoints failed')`). -/
def runAttempts (net : Network) :
    List Attempt → Option ScanError → List Attempt × Except ScanError ScanPayload
  | [], lastError => ([], .error (lastError.getD .noAttempts))
  | a :: rest, _ =>
    match tryRequest (net a) with
    | .ok p => ([a], .ok p)
    | .error e =>
      let r := runAttempts net rest (some e)
      (a :: r.1, r.2)

/-- The environment variables `scan` and the proxy read. -/
structure Env where
  NEXT_PUBLIC_API_BASE : Option String := none
  API_BASE : Option String := none
deriving DecidableEq

/-- `apiBase` (`page.tsx` line 65):
`(process.env.NEXT_PUBLIC_API_BASE || process.env.API_BASE || '').replace(/\/$/, '')`. -/
def resolveApiBase (env : Env) : String :=
  stripTrailingSlash (jsOrStr env.NEXT_PUBLIC_API_BASE (jsOrStr env.API_BASE ""))

/-- The UI state `scan` touches: `loading`, `error`, `data`
(`page.tsx` lines 36-38). -/
structure UiState where
  loading : Bool := false
  error : Option String := none
  data : Option ScanPayload := none
deriving DecidableEq

/-- The remediation hint appended to every surfaced error
(`page.tsx` line 116). -/
def remediationHint : String :=
  "Check your deployed API and set NEXT_PUBLIC_API_BASE (e.g., https://your-app.vercel.app)."

/-- The configuration error thrown for a scheme-less base
(`page.tsx` line 86). -/
def configErrorMsg : String :=
  "NEXT_PUBLIC_API_BASE must include protocol, e.g., https://your-app.vercel.app"

/-- `scan` (`page.tsx` lines 62-119): final UI state after the
invocation settles, paired with the requests issued, in order. An empty
`url` returns before touching any state. Inside the `try`, a configured
base without an http(s) scheme throws before any candidate is built;
otherwise the fallback loop runs and either the payload is stored or
the final error's message plus the remediation hint is surfaced. -/
def scan (env : Env) (url : String) (net : Network) (s : UiState) :
    UiState × List Attempt :=
  if url = "" then (s, [])
  else
    let apiBase := resolveApiBase env
    if apiBase ≠ "" ∧ hasHttpScheme apiBase = false then
      ({ loading := false, error := some (errString configErrorMsg ++ " " ++ remediationHint),
         data := none }, [])
    else
      match runAttempts net (buildAttempts apiBase url) none with
      | (issued, .ok p) =>
        ({ loading := false, error := none, data := some p }, issued)
      | (issued, .error e) =>
        ({ loading := false, error := some (errString e.message ++ " " ++ remediationHint),
           data := none }, issued)

/-! ## Proxy Forwarder (`route.ts`) -/

/-- An upstream response as the proxy sees it: status, `content-type`
header, and the raw body text (the proxy never parses the body). -/
structure UpstreamResponse where
  status : Nat
  contentType : Option String := none
  bodyText : String := ""
deriving DecidableEq

/-- A response the proxy returns to its caller (its `content-type`
header is `application/json` in every branch). -/
structure ProxyResponse where
  status : Nat
  body : String
deriving DecidableEq

/-- One upstream request the proxy issues. -/
structure ProxyCall where
  url : String
  method : String
  body : Option String := none
deriving DecidableEq

/-- The proxy's upstream network oracle. -/
def ProxyNetwork : Type := ProxyCall → UpstreamResponse

/-- `getBase` (`route.ts` lines 3-7): note the env order is
`API_BASE || NEXT_PUBLIC_API_BASE`, then one trailing slash is
stripped; an empty result means unconfigured. -/
def getBase (env : Env) : Option String :=
  let trimmed := stripTrailingSlash (jsOrStr env.API_BASE (jsOrStr env.NEXT_PUBLIC_API_BASE ""))
  if trimmed ≠ "" then some trimmed else none

/-- The body of the 503 response when no base is configured
(`route.ts` lines 28 and 42). -/
def notConfiguredBody : String :=
  "\x7b\"error\":" ++
    jsonQuote "API_BASE not configured. Set API_BASE or NEXT_PUBLIC_API_BASE to your deployed URL." ++
    "\x7d"

/-- The body of the synthesized 502 response
(`route.ts` lines 14-17). -/
def upstreamNonJsonBody (status : Nat) : String :=
  "\x7b\"error\":" ++
    jsonQuote ("Upstream returned non-JSON (status " ++ toString status ++ ")") ++ "\x7d"

/-- `forward` (`route.ts` lines 9-23): relay status and body text when
the upstream content-type includes `application/json`, otherwise a 502
with a synthesized JSON error naming the upstream status. -/
def forward (r : UpstreamResponse) : ProxyResponse :=
  if strIncludes (r.contentType.getD "") "application/json" = false then
    { status := 502, body := upstreamNonJsonBody r.status }
  else
    { status := r.status, body := r.bodyText }

/-- `POST` handler (`route.ts` lines 25-37): 503 without any upstream
call when unconfigured, else forward the request body to
`{base}/api/scan`. Returns the response and the upstream calls issued. -/
def proxyPOST (env : Env) (net : ProxyNetwork) (reqBody : String) :
    ProxyResponse × List ProxyCall :=
  match getBase env with
  | none => ({ status := 503, body := notConfiguredBody }, [])
  | some base =>
    let call : ProxyCall := { url := base ++ "/api/scan", method := "POST", body := some reqBody }
    (forward (net call), [call])

/-- `GET` handler (`route.ts` lines 39-48): 503 without any upstream
call when unconfigured, else forward the query parameter
(`searchParams.get('url') || ''`) to `{base}/api/scan?url=...`. -/
def proxyGET (env : Env) (net : ProxyNetwork) (urlParam : Option String) :
    ProxyResponse × List ProxyCall :=
  match getBase env with
  | none => ({ status := 503, body := notConfiguredBody }, [])
  | some base =>
    let call : ProxyCall :=
      { url := base ++ "/api/scan?url=" ++ encodeURIComponent (urlParam.getD ""), method := "GET" }
    (forward (net call), [call])

/-- A severity field value the upstream contract allows: absent, empty,
or case-insensitively one of the five labels. -/
def sevWF : Option String → Prop
  | none => True
  | some s => s = "" ∨ jsToUpper s ∈ fiveLabels

instance (o : Option String) : Decidable (sevWF o) :=
  match o with
  | none => inferInstanceAs (Decidable True)
  | some s => inferInstanceAs (Decidable (s = "" ∨ jsToUpper s ∈ fiveLabels))

/-- A confidence field value the upstream contract allows: absent,
non-numeric, or a number in the closed interval `[0, 1]`. -/
def confWF : Option ConfVal → Prop
  | some (ConfVal.num q) => 0 ≤ q ∧ q ≤ 1
  | _ => True

instance (o : Option ConfVal) : Decidable (confWF o) :=
  match o with
  | some (ConfVal.num q) => inferInstanceAs (Decidable (0 ≤ q ∧ q ≤ 1))
  | some ConfVal.nonNum => inferInstanceAs (Decidable True)
  | none => inferInstanceAs (Decidable True)

/-! ## Helper lemmas about the fallback loop -/

/-- Step equation: a successful head candidate stops the loop. -/
theorem runAttempts_cons_ok (net : Network) (a : Attempt) (rest : List Attempt)
    (last : Option ScanError) (p : ScanPayload)
    (h : tryRequest (net a) = Except.ok p) :
    runAttempts net (a :: rest) last = ([a], Except.ok p) := by
  unfold runAttempts
  rw [h]

/-- Step equation: a failing head candidate is recorded and the loop
continues with the failure as the new last error. -/
theorem runAttempts_cons_error (net : Network) (a : Attempt) (rest : List Attempt)
    (last : Option ScanError) (e : ScanError)
    (h : tryRequest (net a) = Except.error e) :
    runAttempts net (a :: rest) last =
      (a :: (runAttempts net rest (some e)).1, (runAttempts net rest (some e)).2) := by
  conv_lhs => unfold runAttempts
  rw [h]

/-- If the executor fails on the first `k` candidates and succeeds on
candidate `k` (0-indexed), the loop issues exactly the first `k + 1`
candidates and returns that success. -/
theorem runAttempts_first_success (net : Network) (l : List Attempt) (k : Nat)
    (last : Option ScanError) (p : ScanPayload) (hk : k < l.length)
    (hfail : ∀ a ∈ l.take k, ∃ e, tryRequest (net a) = Except.error e)
    (hsucc : tryRequest (net (l.get ⟨k, hk⟩)) = Except.ok p) :
    runAttempts net l last = (l.take (k + 1), Except.ok p) := by
  induction l generalizing k last with
  | nil => exact absurd hk (by simp)
  | cons a t ih =>
    cases k with
    | zero =>
      have hs : tryRequest (net a) = Except.ok p := hsucc
      rw [runAttempts_cons_ok net a t last p hs]
      simp
    | succ k =>
      obtain ⟨e, he⟩ := hfail a (by simp)
      have hs : tryRequest (net (t.get ⟨k, Nat.lt_of_succ_lt_succ hk⟩)) = Except.ok p := hsucc
      have ih2 := ih k (some e) (Nat.lt_of_succ_lt_succ hk)
        (fun b hb => hfail b (List.mem_cons_of_mem a hb)) hs
      rw [runAttempts_cons_error net a t last e he, ih2]
      simp [List.take_succ_cons]

/-- If the executor fails on every candidate (candidate `i` failing
with error `f i`), the loop issues every candidate and throws the last
candidate's error. -/
theorem runAttempts_all_fail (net : Network) (l : List Attempt) (f : Nat → ScanError)
    (last : Option ScanError) (hne : l ≠ [])
    (hfail : ∀ i (hi : i < l.length), tryRequest (net (l.get ⟨i, hi⟩)) = Except.error (f i)) :
    runAttempts net l last = (l, Except.error (f (l.length - 1))) := by
  induction l generalizing f last with
  | nil => exact absurd rfl hne
  | cons a t ih =>
    have h0 : tryRequest (net a) = Except.error (f 0) := hfail 0 (by simp)
    cases t with
    | nil =>
      rw [runAttempts_cons_error net a [] last (f 0) h0]
      simp [runAttempts]
    | cons b u =>
      have ih2 := ih (fun i => f (i + 1)) (some (f 0)) (by simp)
        (fun i hi => hfail (i + 1) (Nat.succ_lt_succ hi))
      rw [runAttempts_cons_error net a (b :: u) last (f 0) h0, ih2]
      simp

/-- Any run of the fallback loop inside `scan` (non-empty reference, no
configuration failure) that ends in an error is surfaced as that
error's message followed by the remediation hint. -/
theorem scan_surfaces_last_error (env : Env) (url : String) (net : Network)
    (s : UiState) (issued : List Attempt) (e : ScanError) (hurl : url ≠ "")
    (hok : resolveApiBase env = "" ∨ hasHttpScheme (resolveApiBase env) = true)
    (hrun : runAttempts net (buildAttempts (resolveApiBase env) url) none =
      (issued, Except.error e)) :
    scan env url net s =
      ({ loading := false,
         error := some (errString e.message ++ " " ++ remediationHint),
         data := none }, issued) := by
  have hc : ¬ (resolveApiBase env ≠ "" ∧ hasHttpScheme (resolveApiBase env) = false) := by
    intro hc
    rcases hok with h | h
    · exact hc.1 h
    · rw [h] at hc
      exact Bool.noConfusion hc.2
  simp only [scan]
  rw [if_neg hurl, if_neg hc, hrun]

/-! ## Claims -/

/-- C1: for every ordered candidate list and every position `k`
(0-indexed here; the claim's candidate `k` is position `k - 1`) such
that the Request Executor fails on all earlier candidates and succeeds
at position `k`, the Fallback Controller issues exactly the first
`k + 1` candidates, in candidate order, attempts no candidate after
that one, and the result is that candidate's parsed payload. -/
theorem claim_C1_first_success (net : Network) (l : List Attempt) (k : Nat)
    (last : Option ScanError) (p : ScanPayload) (hk : k < l.length)
    (hfail : ∀ a ∈ l.take k, ∃ e, tryRequest (net a) = Except.error e)
    (hsucc : tryRequest (net (l.get ⟨k, hk⟩)) = Except.ok p) :
    runAttempts net l last = (l.take (k + 1), Except.ok p) :=
  runAttempts_first_success net l k last p hk hfail hsucc

/-- Witness for C1: three candidates, the first fails with a non-JSON
response and the second succeeds, so exactly the first two are issued
and the second candidate's payload is the result. -/
theorem claim_C1_first_success_witness :
    runAttempts
      (fun a =>
        if a.url = "/one" then
          NetResult.response { status := 200, contentType := some "text/html" }
        else
          NetResult.response
            { status := 200, contentType := some "application/json", bodyJson := some {} })
      [{ url := "/one", method := "GET" }, { url := "/two", method := "GET" },
       { url := "/three", method := "GET" }] none
    = ([{ url := "/one", method := "GET" }, { url := "/two", method := "GET" },
        { url := "/three", method := "GET" }].take 2, Except.ok ({} : ScanPayload)) :=
  claim_C1_first_success _ _ 1 none {} (by decide)
    (by
      intro a ha
      have h : a = { url := "/one", method := "GET" } := by simpa using ha
      subst h
      exact ⟨ScanError.nonJson 200, rfl⟩)
    rfl

/-- C2: when every candidate fails, the Fallback Controller issues all
`N` candidates, in order, and the surfaced error is the failure of the
last attempted candidate; `scan` renders any such terminal failure as
that failure's message followed by the fixed remediation hint; in
particular, when all candidates answer HTTP 500 with JSON body
`\x7b error: "internal" \x7d`, the final surfaced message is
`"internal "` followed by the hint (and all four same-origin candidates
were issued). -/
theorem claim_C2_all_fail :
    (∀ (net : Network) (l : List Attempt) (f : Nat → ScanError) (last : Option ScanError),
      l ≠ [] →
      (∀ i (hi : i < l.length), tryRequest (net (l.get ⟨i, hi⟩)) = Except.error (f i)) →
      runAttempts net l last = (l, Except.error (f (l.length - 1)))) ∧
    (∀ (env : Env) (url : String) (net : Network) (s : UiState)
       (issued : List Attempt) (e : ScanError),
      url ≠ "" →
      (resolveApiBase env = "" ∨ hasHttpScheme (resolveApiBase env) = true) →
      runAttempts net (buildAttempts (resolveApiBase env) url) none =
        (issued, Except.error e) →
      scan env url net s =
        ({ loading := false,
           error := some (errString e.message ++ " " ++ remediationHint),
           data := none }, issued)) ∧
    (scan {} "https://github.com/octocat/Hello-World"
        (fun _ => NetResult.response
          { status := 500, contentType := some "application/json",
            bodyJson := some { errorField := some "internal" } }) {}
      = ({ loading := false, error := some ("internal " ++ remediationHint), data := none },
         buildAttempts "" "https://github.com/octocat/Hello-World") ∧
     (buildAttempts "" "https://github.com/octocat/Hello-World").length = 4) := by
  refine ⟨runAttempts_all_fail, scan_surfaces_last_error, ?_, by decide⟩
  rfl

/-- Witness for C2: two candidates both answering plain text with
status 503; both are issued and the surfaced error is the second
candidate's non-JSON failure. -/
theorem claim_C2_all_fail_witness :
    runAttempts
      (fun _ => NetResult.response { status := 503, contentType := some "text/plain" })
      [{ url := "/one", method := "GET" }, { url := "/two", method := "GET" }] none
    = ([{ url := "/one", method := "GET" }, { url := "/two", method := "GET" }],
       Except.error (ScanError.nonJson 503)) :=
  claim_C2_all_fail.1 _ _ (fun _ => ScanError.nonJson 503) none (by decide)
    (fun _ _ => rfl)

/-- C10: for the empty repository reference, `scan` is a complete
no-op: it returns immediately, issues zero requests, raises no error,
and leaves the loading, error, and result state exactly unchanged. -/
theorem claim_C10_empty_reference (env : Env) (net : Network) (s : UiState) :
    scan env "" net s = (s, []) := rfl

/-- C4: for every non-empty scan reference and every environment whose
configured base URL resolves (after the code's own single
trailing-slash strip) to a non-empty value lacking an `http://` or
`https://` scheme, `scan` fails immediately with the configuration
error (rendered with the remediation hint) and issues zero network
requests during that invocation. -/
theorem claim_C4_config_error (env : Env) (url : String) (net : Network) (s : UiState)
    (hurl : url ≠ "") (hbase : resolveApiBase env ≠ "")
    (hscheme : hasHttpScheme (resolveApiBase env) = false) :
    scan env url net s =
      ({ loading := false,
         error := some (configErrorMsg ++ " " ++ remediationHint),
         data := none }, []) := by
  have he : errString configErrorMsg = configErrorMsg := by decide
  simp only [scan]
  rw [if_neg hurl, if_pos ⟨hbase, hscheme⟩, he]

/-- Witness for C4 (end-to-end scenario B): base URL `"ftp://bad"`,
non-empty reference; the scan surfaces the configuration error and
issues no request. -/
theorem claim_C4_config_error_witness :
    scan { NEXT_PUBLIC_API_BASE := some "ftp://bad" }
        "https://github.com/octocat/Hello-World" (fun _ => NetResult.exn "unreachable") {}
      = ({ loading := false,
           error := some (configErrorMsg ++ " " ++ remediationHint),
           data := none }, []) :=
  claim_C4_config_error _ _ _ _ (by decide) (by decide) (by decide)

/-- C5: the Request Executor classifies an HTTP response as success if
and only if its status is in the success range (200-299), its
content-type includes `application/json`, and its body parses as JSON;
in particular an HTTP 200 response with content-type `text/html` is a
non-JSON format failure (never success, whatever its body), and the
Fallback Controller then proceeds to the next candidate. -/
theorem claim_C5_success_iff :
    (∀ r : HttpResponse,
      (∃ p, tryRequest (NetResult.response r) = Except.ok p) ↔
        (isOkStatus r.status = true ∧
         strIncludes (r.contentType.getD "") "application/json" = true ∧
         r.bodyJson.isSome = true)) ∧
    (∀ bodyJson, tryRequest (NetResult.response
        { status := 200, contentType := some "text/html", bodyJson := bodyJson })
      = Except.error (ScanError.nonJson 200)) ∧
    (runAttempts
        (fun a =>
          if a.url = "/one" then
            NetResult.response
              { status := 200, contentType := some "text/html", bodyJson := some {} }
          else
            NetResult.response
              { status := 200, contentType := some "application/json", bodyJson := some {} })
        [{ url := "/one", method := "GET" }, { url := "/two", method := "GET" }] none
      = ([{ url := "/one", method := "GET" }, { url := "/two", method := "GET" }],
         Except.ok ({} : ScanPayload))) := by
  refine ⟨?_, fun bodyJson => rfl, rfl⟩
  intro r
  unfold tryRequest
  rcases hct : strIncludes (r.contentType.getD "") "application/json" with _ | _
  · simp [hct]
  · rcases hb : r.bodyJson with _ | j
    · simp [hct, hb]
    · rcases hok : isOkStatus r.status with _ | _
      · simp [hct, hb, hok]
      · simp [hct, hb, hok]

/-- C6: the Endpoint Resolver produces candidates in exactly the
priority order of the four construction rules. With a configured base:
local-proxy POST with JSON body, local-proxy GET with the query-encoded
URL, same-origin POST and GET on the primary path, the same pair on the
trailing-slash variant, then the four POST/GET non-slash/slash variants
against the external base. With no base configured: only the four
same-origin candidates. -/
theorem claim_C6_resolver_order :
    (∀ apiBase url, apiBase ≠ "" →
      buildAttempts apiBase url =
        [{ url := "/api/proxy-scan", method := "POST", body := some (jsonBodyUrl url) },
         { url := "/api/proxy-scan?url=" ++ encodeURIComponent url, method := "GET" },
         { url := "/api/scan", method := "POST", body := some (jsonBodyUrl url) },
         { url := "/api/scan?url=" ++ encodeURIComponent url, method := "GET" },
         { url := "/api/scan/", method := "POST", body := some (jsonBodyUrl url) },
         { url := "/api/scan/?url=" ++ encodeURIComponent url, method := "GET" },
         { url := stripTrailingSlash apiBase ++ "/api/scan", method := "POST",
           body := some (jsonBodyUrl url) },
         { url := stripTrailingSlash apiBase ++ "/api/scan?url=" ++ encodeURIComponent url,
           method := "GET" },
         { url := stripTrailingSlash apiBase ++ "/api/scan/", method := "POST",
           body := some (jsonBodyUrl url) },
         { url := stripTrailingSlash apiBase ++ "/api/scan/?url=" ++ encodeURIComponent url,
           method := "GET" }]) ∧
    (∀ url, buildAttempts "" url =
        [{ url := "/api/scan", method := "POST", body := some (jsonBodyUrl url) },
         { url := "/api/scan?url=" ++ encodeURIComponent url, method := "GET" },
         { url := "/api/scan/", method := "POST", body := some (jsonBodyUrl url) },
         { url := "/api/scan/?url=" ++ encodeURIComponent url, method := "GET" }]) := by
  constructor
  · intro apiBase url h
    simp [buildAttempts, h]
  · intro url
    simp [buildAttempts]

/-- Witness for C6: the full ten-candidate order for a concrete
configured base, with the trailing slash of the base stripped for the
external candidates. -/
theorem claim_C6_resolver_order_witness :
    buildAttempts "http://api.example/" "https://github.com/o/r" =
      [{ url := "/api/proxy-scan", method := "POST",
         body := some (jsonBodyUrl "https://github.com/o/r") },
       { url := "/api/proxy-scan?url=" ++ encodeURIComponent "https://github.com/o/r",
         method := "GET" },
       { url := "/api/scan", method := "POST",
         body := some (jsonBodyUrl "https://github.com/o/r") },
       { url := "/api/scan?url=" ++ encodeURIComponent "https://github.com/o/r",
         method := "GET" },
       { url := "/api/scan/", method := "POST",
         body := some (jsonBodyUrl "https://github.com/o/r") },
       { url := "/api/scan/?url=" ++ encodeURIComponent "https://github.com/o/r",
         method := "GET" },
       { url := "http://api.example" ++ "/api/scan", method := "POST",
         body := some (jsonBodyUrl "https://github.com/o/r") },
       { url := "http://api.example" ++ "/api/scan?url=" ++
           encodeURIComponent "https://github.com/o/r", method := "GET" },
       { url := "http://api.example" ++ "/api/scan/", method := "POST",
         body := some (jsonBodyUrl "https://github.com/o/r") },
       { url := "http://api.example" ++ "/api/scan/?url=" ++
           encodeURIComponent "https://github.com/o/r", method := "GET" }] :=
  claim_C6_resolver_order.1 "http://api.example/" "https://github.com/o/r" (by decide)

/-- C7: a Finding with severity absent or empty normalizes to severity
exactly `"UNKNOWN"`; a Finding with a non-empty severity string
normalizes to that string upper-cased. -/
theorem claim_C7_severity_default (file : String) (f : Finding) :
    ((f.severity = none ∨ f.severity = some "") →
      (normalizeFinding file f).severity = "UNKNOWN") ∧
    (∀ s, f.severity = some s → s ≠ "" →
      (normalizeFinding file f).severity = jsToUpper s) := by
  have hu : jsToUpper "unknown" = "UNKNOWN" := by decide
  constructor
  · rintro (h | h)
    · simp [normalizeFinding, jsOrStr, h, hu]
    · simp [normalizeFinding, jsOrStr, h, hu]
  · intro s hs hne
    simp [normalizeFinding, jsOrStr, hs, hne]

/-- Witness for C7: severity absent gives `"UNKNOWN"`; severity
`"high"` gives `"high"` upper-cased. -/
theorem claim_C7_severity_default_witness :
    (normalizeFinding "app.js" {}).severity = "UNKNOWN" ∧
    (normalizeFinding "app.js" { severity := some "high" }).severity = jsToUpper "high" :=
  ⟨(claim_C7_severity_default "app.js" {}).1 (Or.inl rfl),
   (claim_C7_severity_default "app.js" { severity := some "high" }).2 "high" rfl (by decide)⟩

/-- C8: the normalized row's line is the string coercion of `line` when
present, else of `line_no` when present, else the empty string; in
particular when both fields are present, `line` wins. -/
theorem claim_C8_line_preference (file : String) (f : Finding) :
    (∀ v, f.line = some v → (normalizeFinding file f).line = v.jsString) ∧
    (f.line = none → ∀ v, f.line_no = some v →
      (normalizeFinding file f).line = v.jsString) ∧
    (f.line = none → f.line_no = none → (normalizeFinding file f).line = "") := by
  refine ⟨?_, ?_, ?_⟩
  · intro v hv
    simp [normalizeFinding, hv]
  · intro h v hv
    simp [normalizeFinding, h, hv]
  · intro h h2
    simp [normalizeFinding, h, h2]

/-- Witness for C8: a Finding carrying both `line := 7` and
`line_no := 9` normalizes to line `"7"` — the first-named field wins. -/
theorem claim_C8_line_preference_witness :
    (normalizeFinding "app.js"
        { line := some (LineVal.num 7), line_no := some (LineVal.num 9) }).line
      = (LineVal.num 7).jsString :=
  (claim_C8_line_preference "app.js"
    { line := some (LineVal.num 7), line_no := some (LineVal.num 9) }).1
    (LineVal.num 7) rfl

/-- C9: the Proxy Forwarder, for POST and GET alike: with no configured
base it answers HTTP 503 with the fixed not-configured JSON error and
issues no upstream call; with a configured base it forwards exactly one
request to `base ++ "/api/scan"` (POST body relayed, GET query
re-encoded), and the forwarded response relays the upstream status and
body unchanged when the upstream content-type includes
`application/json`, else it is HTTP 502 with a synthesized JSON error
naming the upstream status. -/
theorem claim_C9_proxy_forwarder (env : Env) (net : ProxyNetwork) :
    (getBase env = none →
      (∀ b, proxyPOST env net b = ({ status := 503, body := notConfiguredBody }, [])) ∧
      (∀ qp, proxyGET env net qp = ({ status := 503, body := notConfiguredBody }, []))) ∧
    (∀ base, getBase env = some base →
      (∀ b, proxyPOST env net b =
        (forward (net { url := base ++ "/api/scan", method := "POST", body := some b }),
         [{ url := base ++ "/api/scan", method := "POST", body := some b }])) ∧
      (∀ qp, proxyGET env net qp =
        (forward (net { url := base ++ "/api/scan?url=" ++ encodeURIComponent (qp.getD ""),
                        method := "GET" }),
         [{ url := base ++ "/api/scan?url=" ++ encodeURIComponent (qp.getD ""),
            method := "GET" }]))) ∧
    (∀ r : UpstreamResponse,
      (strIncludes (r.contentType.getD "") "application/json" = true →
        forward r = { status := r.status, body := r.bodyText }) ∧
      (strIncludes (r.contentType.getD "") "application/json" = false →
        forward r = { status := 502, body := upstreamNonJsonBody r.status })) := by
  refine ⟨fun h => ⟨fun b => ?_, fun qp => ?_⟩,
    fun base h => ⟨fun b => ?_, fun qp => ?_⟩,
    fun r => ⟨fun h => ?_, fun h => ?_⟩⟩
  · simp [proxyPOST, h]
  · simp [proxyGET, h]
  · simp [proxyPOST, h]
  · simp [proxyGET, h]
  · simp [forward, h]
  · simp [forward, h]

/-- Witness for C9: a configured base (trailing slash stripped by
`getBase`) makes POST forward its body to `{base}/api/scan` as the one
upstream call. -/
theorem claim_C9_proxy_forwarder_witness :
    proxyPOST { API_BASE := some "http://up/" }
        (fun _ => { status := 200, contentType := some "application/json", bodyText := "x" })
        "reqbody"
      = (forward { status := 200, contentType := some "application/json", bodyText := "x" },
         [{ url := "http://up" ++ "/api/scan", method := "POST", body := some "reqbody" }]) :=
  ((claim_C9_proxy_forwarder { API_BASE := some "http://up/" }
      (fun _ => { status := 200, contentType := some "application/json", bodyText := "x" })).2.1
    "http://up" (by decide)).1 "reqbody"

/-- C3 counterexample: a payload within the loose wire type whose
finding has severity `"wat"` and numeric confidence `2` normalizes to
a row with severity `"WAT"` (outside the five labels) — so the claim
that, after normalization and grouping, every row's severity is one of
the five labels and every present confidence lies in `[0, 1]` is false;
both conjuncts fail at this payload. -/
theorem claim_C3_counterexample :
    ¬ (∀ r ∈ rows (some badSeverityPayload),
        r.severity ∈ fiveLabels ∧ ∀ q ∈ r.confidence, 0 ≤ q ∧ q ≤ 1) := by
  intro h
  have hr := h
    { file := "a.py", severity := "WAT", message := "", line := "",
      confidence := some 2 } (by decide)
  have h1 : ("WAT" : String) ∉ fiveLabels := by decide
  exact h1 hr.1

/-- C3, amended: for every ScanPayload whose findings all have
well-formed severity (absent, empty, or case-insensitively one of the
five labels) and well-formed confidence (absent, non-numeric, or a
number in `[0, 1]`), every normalized row's severity is one of the five
labels CRITICAL, HIGH, MEDIUM, LOW, UNKNOWN, every present confidence
lies in `[0, 1]`, and the same holds inside every severity group. -/
theorem claim_C3_amended (d : ScanPayload)
    (h : ∀ item ∈ d.results.getD [], ∀ f ∈ item.findings.getD [],
      sevWF f.severity ∧ confWF f.confidence) :
    (∀ r ∈ rows (some d), r.severity ∈ fiveLabels ∧
      ∀ q ∈ r.confidence, 0 ≤ q ∧ q ≤ 1) ∧
    (∀ sev, ∀ r ∈ bySeverity (rows (some d)) sev, r.severity ∈ fiveLabels ∧
      ∀ q ∈ r.confidence, 0 ≤ q ∧ q ≤ 1) := by
  have main : ∀ r ∈ rows (some d), r.severity ∈ fiveLabels ∧
      ∀ q ∈ r.confidence, 0 ≤ q ∧ q ≤ 1 := by
    intro r hr
    rw [rows] at hr
    simp only [Option.some_bind] at hr
    rw [List.mem_flatMap] at hr
    obtain ⟨item, hitem, hr⟩ := hr
    rw [List.mem_map] at hr
    obtain ⟨f, hf, rfl⟩ := hr
    obtain ⟨hsev, hconf⟩ := h item hitem f hf
    constructor
    · show jsToUpper (jsOrStr f.severity "unknown") ∈ fiveLabels
      rcases hs : f.severity with _ | s
      · simp only [jsOrStr]
        decide
      · rw [hs] at hsev
        by_cases hse : s = ""
        · subst hse
          simp only [jsOrStr, if_pos rfl]
          decide
        · rcases hsev with h1 | h1
          · exact absurd h1 hse
          · simpa [jsOrStr, hse] using h1
    · intro q hq
      rcases hc : f.confidence with _ | cv
      · simp [normalizeFinding, hc] at hq
      · cases cv with
        | num q2 =>
          rw [hc] at hconf
          have hq2 : q2 = q := by
            simpa [normalizeFinding, hc] using hq
          subst hq2
          exact hconf
        | nonNum => simp [normalizeFinding, hc] at hq
  refine ⟨main, fun sev r hr => main r ?_⟩
  exact (List.mem_filter.mp hr).1

/-- Witness for the amended C3: the well-formed payload satisfies the
hypothesis, and its one row has severity `"HIGH"` (one of the five
labels) and its confidence `1` is in range. -/
theorem claim_C3_amended_witness :
    (normalizeFinding "app.js"
        { severity := some "high", message := some "eval with user input",
          line := some (LineVal.num 42), confidence := some (ConfVal.num 1) }).severity
      ∈ fiveLabels ∧ ((0 : Rat) ≤ 1 ∧ (1 : Rat) ≤ 1) :=
  have h := (claim_C3_amended wellFormedPayload (by decide)).1
    (normalizeFinding "app.js"
      { severity := some "high", message := some "eval with user input",
        line := some (LineVal.num 42), confidence := some (ConfVal.num 1) })
    (by decide)
  ⟨h.1, h.2 1 (by decide)⟩

end PromptScan
